import Mathlib

/-!
# MeetNote — recording session lifecycle, shallow embedding

This file embeds the extension-side recording session lifecycle of the
MeetNote repository (`chrome-extension/background.js`,
`chrome-extension/popup.js`) and proves properties of it.

Modelling conventions:
* The mutable module-level `recordingState` object (background.js lines
  12-18) becomes the structure `RecordingState`.  The JavaScript object
  never declares a `startTime` property and no statement in the source
  assigns one, yet `createHighlight` (line 341) reads
  `recordingState.startTime`; we model that property as an
  `Option Int` field that is `none` in the initial state and that no
  operation ever sets — reading it yields the `none` (JavaScript
  `undefined`) branch, whose arithmetic result is NaN.
* Network effects are made explicit: each operation returns, besides the
  next state, the list of backend HTTP calls it issued (`BackendCall`)
  and the list of user-visible or logged effects (`Event`).
* Each `fetch` outcome (success / non-2xx / network error) and the tab
  capture outcome are parameters of the operation, since they are decided
  by the environment.
* Binary blobs (audio chunks) are byte lists; `Blob` concatenation
  (background.js line 292) is `List.join`.
-/

namespace MeetNote

/-- One captured audio segment, an opaque byte sequence. -/
abbrev Chunk := List Nat

/-- `recordingState` (background.js lines 12-18), plus the `startTime`
property that `createHighlight` (line 341) reads although nothing in the
source ever assigns it. -/
structure RecordingState where
  isRecording : Bool
  meetingId : Option Nat
  audioChunks : List Chunk
  mediaRecorder : Bool
  currentTab : Option Nat
  startTime : Option Int
deriving DecidableEq

/-- The initial value of `recordingState` (background.js lines 12-18);
also the value the state is reset to by `stopRecording` (lines 190-196). -/
def initialState : RecordingState :=
  { isRecording := false
    meetingId := none
    audioChunks := []
    mediaRecorder := false
    currentTab := none
    startTime := none }

/-- A backend HTTP request issued by the extension. -/
inductive BackendCall where
  | createMeeting (token : String) (title platform url : String)
  | upload (token : String) (meetingId : Nat) (payload : List Nat)
  | highlight (token : Option String) (meetingId : Nat)
      (window : Option (Int × Int))
  | health
deriving DecidableEq

/-- Observable effects other than backend calls: notifications, console
logging, messages to the captured tab, badge changes. -/
inductive Event where
  | errorNotice (msg : String)
  | notice (msg : String)
  | log (msg : String)
  | logError (msg : String)
  | msgToTab (t : String)
  | badgeSet (text : String)
  | badgeClear
deriving DecidableEq

/-- Whether an event reports a failure (an error notification shown to
the user, or a `console.error` line). -/
def Event.isFailure : Event → Bool
  | .errorNotice _ => true
  | .logError _ => true
  | _ => false

/-- Outcome of the `POST /api/meetings` fetch in `startRecording`
(background.js lines 103-120). -/
inductive MeetingResp where
  | ok (id : Nat)
  | httpErr
  | netErr
deriving DecidableEq

/-- Outcome of the upload-audio fetch in `uploadAudioToBackend`
(background.js lines 299-314). -/
inductive UploadResp where
  | ok
  | httpErr
  | netErr
deriving DecidableEq

/-- Outcome of the highlights fetch in `createHighlight`
(background.js lines 345-368). -/
inductive HighlightResp where
  | ok
  | httpErr
  | netErr
deriving DecidableEq

/-- `startRecording(tabId)` (background.js lines 87-150).
Parameters supplied by the environment: the stored auth token (`token`,
line 96), the createMeeting fetch outcome (`resp`), whether
`startTabAudioCapture` succeeds (`cap`, lines 124 and 217-258), and the
current tab URL (line 112).  The function first mutates the state
(lines 91-93), then throws on a missing token (line 98), a non-ok
response (line 116) or a capture failure (line 226); the catch branch
(lines 138-148) only resets `isRecording` and shows a notification. -/
def startRecording (tabId : Nat) (token : Option String)
    (resp : MeetingResp) (cap : Bool) (url : String)
    (st : RecordingState) :
    RecordingState × List BackendCall × List Event :=
  let st1 : RecordingState :=
    { st with isRecording := true, currentTab := some tabId,
              audioChunks := [] }
  match token with
  | none =>
      ({ st1 with isRecording := false }, [],
       [Event.errorNotice "Not authenticated"])
  | some tok =>
      let call := BackendCall.createMeeting tok "Meeting Recording"
        "detected" url
      match resp with
      | .netErr =>
          ({ st1 with isRecording := false }, [call],
           [Event.errorNotice "Failed to fetch"])
      | .httpErr =>
          ({ st1 with isRecording := false }, [call],
           [Event.errorNotice "Failed to create meeting"])
      | .ok id =>
          let st2 : RecordingState := { st1 with meetingId := some id }
          if cap then
            ({ st2 with mediaRecorder := true }, [call],
             [Event.msgToTab "RECORDING_STARTED", Event.badgeSet "REC"])
          else
            ({ st2 with isRecording := false }, [call],
             [Event.errorNotice "Failed to capture tab audio"])

/-- `sendAudioChunkToBackend(audioBlob)` (background.js lines 261-282).
After the token/meetingId guard (line 265) the handler converts the blob
to base64 and stops: the transmission is left as a comment
("For now, we'll accumulate and send in bulk", lines 274-276), so no
request is issued on any path. -/
def sendAudioChunkToBackend (token : Option String) (_chunk : Chunk)
    (st : RecordingState) : List BackendCall :=
  match token, st.meetingId with
  | some _, some _ => []
  | _, _ => []

/-- The `mediaRecorder.ondataavailable` handler (background.js lines
234-241): a non-empty chunk is appended to `audioChunks` and handed to
`sendAudioChunkToBackend`. -/
def onDataAvailable (token : Option String) (chunk : Chunk)
    (st : RecordingState) : RecordingState × List BackendCall :=
  if chunk.length > 0 then
    ({ st with audioChunks := st.audioChunks ++ [chunk] },
     sendAudioChunkToBackend token chunk st)
  else (st, [])

/-- A whole recording phase: the chunk-ready events fire in order,
accumulating state changes and any backend calls they issue. -/
def recordChunks (token : Option String) (chunks : List Chunk)
    (st : RecordingState) : RecordingState × List BackendCall :=
  match chunks with
  | [] => (st, [])
  | c :: rest =>
      let r := onDataAvailable token c st
      let res := recordChunks token rest r.1
      (res.1, r.2 ++ res.2)

/-- `uploadAudioToBackend()` (background.js lines 285-328).  Guard at
line 289; the chunks are concatenated into one blob (line 292) and sent
in a single request (lines 299-308); a non-ok response throws (line 311)
and every throw is caught and only logged (lines 325-327); on success a
`TRANSCRIPTION_COMPLETE` message goes to the captured tab (lines
318-323). -/
def uploadAudioToBackend (token : Option String) (up : UploadResp)
    (st : RecordingState) : List BackendCall × List Event :=
  match token, st.meetingId with
  | some tok, some mid =>
      let payload := st.audioChunks.flatten
      let call := BackendCall.upload tok mid payload
      match up with
      | .ok =>
          ([call],
           if st.currentTab.isSome then
             [Event.msgToTab "TRANSCRIPTION_COMPLETE"]
           else [])
      | .httpErr => ([call], [Event.logError "Failed to upload audio"])
      | .netErr => ([call], [Event.logError "Failed to upload audio"])
  | _, _ => ([], [])

/-- `stopRecording()` (background.js lines 153-201).  Guard at line 154;
the upload happens only when chunks were captured and a meeting exists
(line 167); then the tab is notified (lines 172-176), the badge cleared
(line 179), a completion notification shown (lines 182-187), and the
state reset to its initial value (lines 190-196).  `uploadAudioToBackend`
never throws, so the reset is always reached. -/
def stopRecording (token : Option String) (up : UploadResp)
    (st : RecordingState) :
    RecordingState × List BackendCall × List Event :=
  if st.isRecording = false then (st, [], [])
  else
    let upRes :=
      if st.audioChunks.length > 0 && st.meetingId.isSome then
        uploadAudioToBackend token up st
      else ([], [])
    let tabMsg :=
      if st.currentTab.isSome then [Event.msgToTab "RECORDING_STOPPED"]
      else []
    (initialState, upRes.1,
     upRes.2 ++ tabMsg ++
       [Event.badgeClear, Event.notice "Recording Complete"])

/-- `toggleRecording()` (background.js lines 204-214): stop when
recording, otherwise query the active tab and start there (nothing
happens when no active tab exists). -/
def toggleRecording (activeTab : Option Nat) (token : Option String)
    (resp : MeetingResp) (cap : Bool) (url : String) (up : UploadResp)
    (st : RecordingState) :
    RecordingState × List BackendCall × List Event :=
  if st.isRecording then stopRecording token up st
  else
    match activeTab with
    | some t => startRecording t token resp cap url st
    | none => (st, [], [])

/-- The highlight window computed at background.js lines 341-343:
`currentTime = Date.now() - recordingState.startTime`,
`startTime = Math.max(0, currentTime - 30000)`, `endTime = currentTime`.
When `recordingState.startTime` was never assigned (it never is in the
source) the JavaScript subtraction yields NaN; we model the NaN window
as `none`. -/
def highlightWindow (now : Int) (startTime : Option Int) :
    Option (Int × Int) :=
  match startTime with
  | none => none
  | some t0 =>
      let currentTime := now - t0
      some (max 0 (currentTime - 30000), currentTime)

/-- Millisecond-to-second conversion applied to both window endpoints
before they are sent (background.js lines 355-356). -/
def windowSeconds (w : Int × Int) : ℚ × ℚ :=
  ((w.1 : ℚ) / 1000, (w.2 : ℚ) / 1000)

/-- `createHighlight()` (background.js lines 331-373).  Guard at line
332 (only a log line, no state change, no request); past the guard the
token is read but not checked, the window computed from
`recordingState.startTime`, and one highlights request issued; an ok
response shows a notification (lines 361-368), a non-ok response does
nothing, a thrown error is logged (lines 370-372). -/
def createHighlight (token : Option String) (now : Int)
    (resp : HighlightResp) (st : RecordingState) :
    RecordingState × List BackendCall × List Event :=
  match st.isRecording, st.meetingId with
  | true, some mid =>
      let call := BackendCall.highlight token mid
        (highlightWindow now st.startTime)
      match resp with
      | .ok => (st, [call], [Event.notice "Highlight Created"])
      | .httpErr => (st, [call], [])
      | .netErr => (st, [call], [Event.logError "Failed to create highlight"])
  | _, _ =>
      (st, [], [Event.log "Cannot create highlight: not recording"])

/-- Message types dispatched by the background worker (background.js
lines 54-81). -/
inductive MsgType where
  | START_RECORDING
  | STOP_RECORDING
  | GET_RECORDING_STATE
  | CREATE_HIGHLIGHT
  | MEETING_DETECTED
  | AUDIO_CHUNK
deriving DecidableEq

/-- The message sender: `sender.tab` is present only when the message
comes from a content script running in a tab; messages sent from the
popup (popup.js lines 194, 198, 226) have no tab. -/
structure Sender where
  tab : Option Nat
deriving DecidableEq

/-- A JavaScript runtime fault: reading a property of `undefined`. -/
inductive JsError where
  | typeError
deriving DecidableEq

/-- The `chrome.runtime.onMessage` listener (background.js lines 51-84).
`START_RECORDING` and `MEETING_DETECTED` dereference `sender.tab.id`
(lines 56 and 75): when the sender has no tab this is a TypeError.  The
remaining environment parameters feed the dispatched operation. -/
def onMessage (msg : MsgType) (sender : Sender) (token : Option String)
    (resp : MeetingResp) (cap : Bool) (url : String) (up : UploadResp)
    (now : Int) (hresp : HighlightResp) (st : RecordingState) :
    Except JsError (RecordingState × List BackendCall × List Event) :=
  match msg with
  | .START_RECORDING =>
      match sender.tab with
      | none => .error .typeError
      | some tabId => .ok (startRecording tabId token resp cap url st)
  | .STOP_RECORDING => .ok (stopRecording token up st)
  | .GET_RECORDING_STATE => .ok (st, [], [])
  | .CREATE_HIGHLIGHT => .ok (createHighlight token now hresp st)
  | .MEETING_DETECTED =>
      match sender.tab with
      | none => .error .typeError
      | some _ => .ok (st, [], [Event.notice "Meeting Detected"])
  | .AUDIO_CHUNK => .ok (st, [], [])

/-- `checkBackendStatus()` outcomes (popup.js lines 242-257): the fetch
resolves 2xx, resolves non-2xx, rejects with a network error, or is
aborted by the 5-second `AbortSignal.timeout`. -/
inductive HealthOutcome where
  | ok2xx
  | nonOk
  | netError
  | timedOut
deriving DecidableEq

/-- The timeout passed to `AbortSignal.timeout` in `checkBackendStatus`
(popup.js line 246), in milliseconds. -/
def checkBackendStatusTimeoutMs : Nat := 5000

/-- `checkBackendStatus()` (popup.js lines 242-257): an ok response
displays Connected, every other outcome lands in the else branch or the
catch branch and displays Offline; no outcome escapes the handler. -/
def checkBackendStatus (o : HealthOutcome) : String :=
  match o with
  | .ok2xx => "Connected"
  | .nonOk => "Offline"
  | .netError => "Offline"
  | .timedOut => "Offline"

/-- The boolean reachability view of `checkBackendStatus`, the spec's
`healthCheck() -> reachable`. -/
def healthCheckReachable (o : HealthOutcome) : Bool :=
  checkBackendStatus o = "Connected"

/-- A concrete mid-recording state, used to instantiate theorems. -/
def busyState : RecordingState :=
  { isRecording := true
    meetingId := some 7
    audioChunks := [[1, 2]]
    mediaRecorder := true
    currentTab := some 3
    startTime := none }

/-! ## Helper lemmas -/

theorem sendAudioChunk_no_call (token : Option String) (c : Chunk)
    (st : RecordingState) : sendAudioChunkToBackend token c st = [] := by
  unfold sendAudioChunkToBackend
  cases token <;> cases st.meetingId <;> rfl

theorem uploadAudio_no_token (up : UploadResp) (st : RecordingState) :
    uploadAudioToBackend none up st = ([], []) := by
  unfold uploadAudioToBackend
  cases st.meetingId <;> rfl

theorem stopRecording_shape (token : Option String) (up : UploadResp)
    (st : RecordingState) (hrec : st.isRecording = true) :
    stopRecording token up st =
      (initialState,
       (if st.audioChunks.length > 0 && st.meetingId.isSome then
          uploadAudioToBackend token up st else ([], [])).1,
       (if st.audioChunks.length > 0 && st.meetingId.isSome then
          uploadAudioToBackend token up st else ([], [])).2 ++
         (if st.currentTab.isSome then [Event.msgToTab "RECORDING_STOPPED"]
          else []) ++
         [Event.badgeClear, Event.notice "Recording Complete"]) := by
  unfold stopRecording
  rw [if_neg (by simp [hrec])]

theorem recordChunks_nonempty (token : Option String) (chunks : List Chunk)
    (st : RecordingState) (hall : ∀ c ∈ chunks, c ≠ []) :
    recordChunks token chunks st =
      ({ st with audioChunks := st.audioChunks ++ chunks }, []) := by
  induction chunks generalizing st with
  | nil => simp [recordChunks]
  | cons c rest ih =>
      have hc : c ≠ [] := hall c (by simp)
      have hrest : ∀ x ∈ rest, x ≠ [] := fun x hx => hall x (by simp [hx])
      have hlen : c.length > 0 := List.length_pos.mpr hc
      simp [recordChunks, onDataAvailable, hlen, sendAudioChunk_no_call,
        ih _ hrest]

/-! ## Claims -/

/-- C1, counterexample: a `start` intent received while the session is
already recording is not a no-op — `startRecording` has no guard on
`isRecording`, so it clears the accumulated `audioChunks`, overwrites the
state, and issues a second `createMeeting` backend call. -/
theorem start_while_recording_not_noop :
    (startRecording 3 (some "tok") (MeetingResp.ok 8) true "u" busyState).2.1 =
      [BackendCall.createMeeting "tok" "Meeting Recording" "detected" "u"] ∧
    (startRecording 3 (some "tok") (MeetingResp.ok 8) true "u" busyState).1 ≠
      busyState := by
  decide

/-- C1, amended: `startRecording` itself is unguarded — even from a state
that is already recording, with a token present and a successful
createMeeting response, it issues a (second) createMeeting call and resets
`audioChunks` to empty; the only rejection of a duplicate start lives on
the toggle path, where `toggleRecording` routes the intent to
`stopRecording` whenever `isRecording` is already true. -/
theorem start_unguarded_toggle_guarded (tabId : Nat) (tok : String)
    (id : Nat) (cap : Bool) (url : String) (up : UploadResp)
    (resp : MeetingResp) (token : Option String) (st : RecordingState)
    (h : st.isRecording = true) :
    (startRecording tabId (some tok) (MeetingResp.ok id) cap url st).2.1 =
      [BackendCall.createMeeting tok "Meeting Recording" "detected" url] ∧
    (startRecording tabId (some tok) (MeetingResp.ok id) cap url st).1.audioChunks
      = [] ∧
    toggleRecording (some tabId) token resp cap url up st =
      stopRecording token up st := by
  refine ⟨?_, ?_, ?_⟩
  · cases cap <;> rfl
  · cases cap <;> rfl
  · simp [toggleRecording, h]

/-- Witness for C1's amended theorem at a concrete recording state. -/
theorem start_unguarded_toggle_guarded_witness :
    (startRecording 3 (some "t") (MeetingResp.ok 8) true "u" busyState).2.1 =
      [BackendCall.createMeeting "t" "Meeting Recording" "detected" "u"] ∧
    (startRecording 3 (some "t") (MeetingResp.ok 8) true "u" busyState).1.audioChunks
      = [] ∧
    toggleRecording (some 3) (some "t") (MeetingResp.ok 8) true "u"
      UploadResp.ok busyState = stopRecording (some "t") UploadResp.ok busyState :=
  start_unguarded_toggle_guarded 3 "t" 8 true "u" UploadResp.ok
    (MeetingResp.ok 8) (some "t") busyState rfl

/-- C2: the window arithmetic of background.js lines 341-343 would indeed
give `[15000, 45000]` at offset 45000 ms and the clamped `[0, 10000]` at
offset 10000 ms (seconds obtained by dividing by 1000) — but only when
`recordingState.startTime` holds a value.  No operation ever assigns
`startTime` (in particular a fully successful `startRecording` leaves it
untouched), so from the initial state every highlight request is sent with
the NaN window (`none`), never the claimed one. -/
theorem highlight_window_startTime_never_set :
    (∀ t0 : Int, highlightWindow (t0 + 45000) (some t0) = some (15000, 45000)) ∧
    (∀ t0 : Int, highlightWindow (t0 + 10000) (some t0) = some (0, 10000)) ∧
    windowSeconds (15000, 45000) = (15, 45) ∧
    (∀ (tabId : Nat) (token : Option String) (resp : MeetingResp)
       (cap : Bool) (url : String) (st : RecordingState),
       (startRecording tabId token resp cap url st).1.startTime = st.startTime) ∧
    (∀ now : Int,
       createHighlight (some "t") now HighlightResp.ok
           (startRecording 1 (some "t") (MeetingResp.ok 5) true "u"
             initialState).1 =
         ((startRecording 1 (some "t") (MeetingResp.ok 5) true "u"
             initialState).1,
          [BackendCall.highlight (some "t") 5 none],
          [Event.notice "Highlight Created"])) := by
  refine ⟨?_, ?_, ?_, ?_, ?_⟩
  · intro t0
    simp only [highlightWindow]
    have h1 : t0 + 45000 - t0 = 45000 := by ring
    rw [h1]
    norm_num
  · intro t0
    simp only [highlightWindow]
    have h1 : t0 + 10000 - t0 = 10000 := by ring
    rw [h1]
    norm_num
  · norm_num [windowSeconds]
  · intro tabId token resp cap url st
    cases token <;> cases resp <;> cases cap <;> rfl
  · intro now
    rfl

/-- C3, counterexample: a start attempt in which createMeeting succeeds
but the tab audio capture then fails returns the session to Idle
(`isRecording = false`) with `meetingId` still set — the catch branch of
`startRecording` resets only `isRecording`. -/
theorem failed_start_leaves_meetingId :
    (startRecording 1 (some "tok") (MeetingResp.ok 5) false "u"
        initialState).1.isRecording = false ∧
    (startRecording 1 (some "tok") (MeetingResp.ok 5) false "u"
        initialState).1.meetingId = some 5 := by
  decide

/-- C3, amended: `meetingId` is set exactly by a successful createMeeting
response during `startRecording` — even when the attempt then fails on
capture and returns to Idle, `meetingId` stays set — and it is cleared
only by `stopRecording`'s reset; it is `none` in the initial state and
unchanged by failed or unauthenticated starts. -/
theorem meetingId_tracks_createMeeting (tabId : Nat) (tok : String)
    (id : Nat) (cap : Bool) (url : String) (st : RecordingState)
    (token : Option String) (up : UploadResp) :
    initialState.meetingId = none ∧
    (startRecording tabId (some tok) (MeetingResp.ok id) cap url st).1.meetingId
      = some id ∧
    (startRecording tabId (some tok) MeetingResp.httpErr cap url st).1.meetingId
      = st.meetingId ∧
    (startRecording tabId (some tok) MeetingResp.netErr cap url st).1.meetingId
      = st.meetingId ∧
    (startRecording tabId none (MeetingResp.ok id) cap url st).1.meetingId
      = st.meetingId ∧
    (st.isRecording = true →
      (stopRecording token up st).1.meetingId = none) := by
  refine ⟨rfl, ?_, rfl, rfl, rfl, ?_⟩
  · cases cap <;> rfl
  · intro h
    simp [stopRecording, h, initialState]

/-- Witness for C3's amended theorem at a concrete recording state. -/
theorem meetingId_tracks_createMeeting_witness :
    (stopRecording (some "t") UploadResp.ok busyState).1.meetingId = none :=
  (meetingId_tracks_createMeeting 1 "t" 5 true "u" busyState (some "t")
    UploadResp.ok).2.2.2.2.2 rfl

/-- C4: stopping a recording that has chunks and a meeting issues exactly
one upload call (the concatenation of the chunks) and, whether that call
succeeds or fails, resets the session to the initial Idle state
(`audioChunks = []`, `meetingId = none`); a failed upload leaves a
reported error and is never retried (the call list stays a singleton). -/
theorem stop_resets_regardless_of_upload (tok : String) (up : UploadResp)
    (st : RecordingState) (mid : Nat)
    (hrec : st.isRecording = true) (hmid : st.meetingId = some mid)
    (hch : st.audioChunks ≠ []) :
    (stopRecording (some tok) up st).1 = initialState ∧
    (stopRecording (some tok) up st).2.1 =
      [BackendCall.upload tok mid st.audioChunks.flatten] ∧
    (up ≠ UploadResp.ok →
      Event.logError "Failed to upload audio" ∈
        (stopRecording (some tok) up st).2.2) := by
  have hlen : st.audioChunks.length > 0 := List.length_pos.mpr hch
  cases up <;>
    simp [stopRecording, uploadAudioToBackend, hrec, hmid, hlen]

/-- Witness for C4 at a concrete recording state with a failing upload. -/
theorem stop_resets_regardless_of_upload_witness :
    (stopRecording (some "t") UploadResp.httpErr busyState).1 = initialState ∧
    (stopRecording (some "t") UploadResp.httpErr busyState).2.1 =
      [BackendCall.upload "t" 7 busyState.audioChunks.flatten] ∧
    Event.logError "Failed to upload audio" ∈
      (stopRecording (some "t") UploadResp.httpErr busyState).2.2 :=
  ⟨(stop_resets_regardless_of_upload "t" UploadResp.httpErr busyState 7 rfl
      rfl (by decide)).1,
   (stop_resets_regardless_of_upload "t" UploadResp.httpErr busyState 7 rfl
      rfl (by decide)).2.1,
   (stop_resets_regardless_of_upload "t" UploadResp.httpErr busyState 7 rfl
      rfl (by decide)).2.2 (by decide)⟩

/-- C5: `createHighlight` invoked while the session is not recording or
has no `meetingId` is rejected by the guard: the state is returned
unchanged and no backend call is issued. -/
theorem highlight_rejected_when_not_recording (token : Option String)
    (now : Int) (resp : HighlightResp) (st : RecordingState)
    (h : st.isRecording = false ∨ st.meetingId = none) :
    (createHighlight token now resp st).1 = st ∧
    (createHighlight token now resp st).2.1 = [] := by
  unfold createHighlight
  rcases h with h | h
  · rw [h]
    cases st.meetingId <;> exact ⟨rfl, rfl⟩
  · rw [h]
    cases st.isRecording <;> exact ⟨rfl, rfl⟩

/-- Witness for C5 at the Idle initial state. -/
theorem highlight_rejected_witness :
    (createHighlight (some "t") 45000 HighlightResp.ok initialState).1 =
      initialState ∧
    (createHighlight (some "t") 45000 HighlightResp.ok initialState).2.1 =
      [] :=
  highlight_rejected_when_not_recording (some "t") 45000 HighlightResp.ok
    initialState (Or.inl rfl)

/-- C6: recording N ≥ 1 (non-empty) chunks issues no backend call at all
while recording — the per-chunk sender is a stub — and the subsequent stop
issues exactly one upload call whose payload is the in-order concatenation
of all chunks. -/
theorem batched_upload_single_call (tok : String) (mid : Nat)
    (tab : Option Nat) (mr : Bool) (chunks : List Chunk) (up : UploadResp)
    (hne : chunks ≠ []) (hall : ∀ c ∈ chunks, c ≠ []) :
    (recordChunks (some tok) chunks
        { isRecording := true, meetingId := some mid, audioChunks := [],
          mediaRecorder := mr, currentTab := tab, startTime := none }).2
      = [] ∧
    (stopRecording (some tok) up
        (recordChunks (some tok) chunks
          { isRecording := true, meetingId := some mid, audioChunks := [],
            mediaRecorder := mr, currentTab := tab,
            startTime := none }).1).2.1
      = [BackendCall.upload tok mid chunks.flatten] := by
  rw [recordChunks_nonempty (some tok) chunks _ hall]
  have hlen : chunks.length > 0 := List.length_pos.mpr hne
  refine ⟨rfl, ?_⟩
  cases up <;> simp [stopRecording, uploadAudioToBackend, hlen]

/-- Witness for C6 with two concrete chunks. -/
theorem batched_upload_single_call_witness :
    (recordChunks (some "t") [[1], [2, 3]]
        { isRecording := true, meetingId := some 9, audioChunks := [],
          mediaRecorder := false, currentTab := none,
          startTime := none }).2 = [] ∧
    (stopRecording (some "t") UploadResp.ok
        (recordChunks (some "t") [[1], [2, 3]]
          { isRecording := true, meetingId := some 9, audioChunks := [],
            mediaRecorder := false, currentTab := none,
            startTime := none }).1).2.1
      = [BackendCall.upload "t" 9 ([[1], [2, 3]] : List Chunk).flatten] :=
  batched_upload_single_call "t" 9 none false [[1], [2, 3]] UploadResp.ok
    (by decide) (by decide)

/-- C7: a `start` intent with no stored auth token makes no createMeeting
call, signals the `Not authenticated` failure, and leaves the session
Idle (`isRecording = false`). -/
theorem start_without_token (tabId : Nat) (resp : MeetingResp) (cap : Bool)
    (url : String) (st : RecordingState) :
    startRecording tabId none resp cap url st =
      ({ st with isRecording := false, currentTab := some tabId,
                 audioChunks := [] }, [],
       [Event.errorNotice "Not authenticated"]) := rfl

/-- C8: every health-check outcome (2xx, non-2xx, network error, 5-second
timeout) resolves to a boolean — `true` exactly on a 2xx response, `false`
on everything else — and the configured timeout bound is 5000 ms. -/
theorem healthCheck_total_and_bounded :
    (∀ o : HealthOutcome,
      healthCheckReachable o = decide (o = HealthOutcome.ok2xx)) ∧
    checkBackendStatusTimeoutMs = 5000 := by
  refine ⟨?_, rfl⟩
  intro o
  cases o <;> rfl

/-- C9, counterexample: a `START_RECORDING` message whose sender has no
tab — exactly what the popup sends — makes the handler dereference
`sender.tab.id` on `undefined`: a TypeError, not a well-defined access. -/
theorem popup_start_message_crashes :
    onMessage MsgType.START_RECORDING ⟨none⟩ (some "t") (MeetingResp.ok 1)
      true "u" UploadResp.ok 0 HighlightResp.ok initialState =
      Except.error JsError.typeError := rfl

/-- C9, amended: the background handler's `START_RECORDING` branch is
total precisely when the sender carries a tab (a content-script sender);
for a tab-less sender (the popup) it faults with a TypeError. -/
theorem start_message_total_iff_sender_has_tab (sender : Sender)
    (token : Option String) (resp : MeetingResp) (cap : Bool) (url : String)
    (up : UploadResp) (now : Int) (hresp : HighlightResp)
    (st : RecordingState) :
    (∃ r, onMessage MsgType.START_RECORDING sender token resp cap url up
        now hresp st = Except.ok r) ↔ sender.tab ≠ none := by
  cases h : sender.tab <;> simp [onMessage, h]

/-- C10: stopping while the token is absent or `meetingId` is null makes
zero backend calls, emits no failure event (neither a notification nor an
error log — the chunks are discarded silently), and still resets the
session to the initial Idle state. -/
theorem stop_silently_discards (st : RecordingState) (tok : Option String)
    (up : UploadResp) (hrec : st.isRecording = true)
    (h : tok = none ∨ st.meetingId = none) :
    (stopRecording tok up st).1 = initialState ∧
    (stopRecording tok up st).2.1 = [] ∧
    ∀ e ∈ (stopRecording tok up st).2.2, e.isFailure = false := by
  have hup : (if st.audioChunks.length > 0 && st.meetingId.isSome then
      uploadAudioToBackend tok up st else ([], [])) = ([], []) := by
    rcases h with h | h
    · subst h
      rw [uploadAudio_no_token]
      split <;> rfl
    · rw [h]
      simp
  have hs := stopRecording_shape tok up st hrec
  rw [hup] at hs
  refine ⟨by rw [hs], by rw [hs], ?_⟩
  rw [hs]
  intro e he
  simp at he
  rcases he with ⟨-, rfl⟩ | rfl | rfl <;> rfl

/-- Witness for C10 at a concrete recording state with no token. -/
theorem stop_silently_discards_witness :
    (stopRecording none UploadResp.ok busyState).1 = initialState ∧
    (stopRecording none UploadResp.ok busyState).2.1 = [] ∧
    ∀ e ∈ (stopRecording none UploadResp.ok busyState).2.2,
      e.isFailure = false :=
  stop_silently_discards busyState none UploadResp.ok rfl (Or.inl rfl)

end MeetNote
